import Mathlib

/-!
Shallow embedding of `src/packages/next/src/build/app-segments/collect-app-segments.ts`:
the build-time collector that turns a compiled route module into an ordered list of
route segments.  External collaborators (the configuration schema/validator, the
segment-parameter extraction routine, the loader tree shape and the module loader,
the client-reference capability check) are not part of this source file; they are
modelled from the specification where marked.
-/

/-- A JavaScript value, as far as this core observes one: strings, numbers,
booleans, null, and functions (identified by an opaque tag, never invoked here). -/
inductive JSValue where
  | str (s : String)
  | num (n : Int)
  | bool (b : Bool)
  | nullV
  | func (id : Nat)
deriving DecidableEq, Repr

/-- `typeof v === 'function'` for an embedded JavaScript value. -/
def JSValue.isFunction : JSValue → Bool
  | .func _ => true
  | _ => false

/-- Modelled from the spec: an object-shaped userland export as observed by this
core — the recognized configuration fields (the exact recognized set is owned by
the external schema collaborator, §6; we model the execution-runtime selection and
the revalidation behavior), the `generateStaticParams` export, and the
client-reference capability tag. -/
structure UserlandObject where
  runtime : Option JSValue
  revalidate : Option JSValue
  generateStaticParams : Option JSValue
  clientRef : Bool
deriving DecidableEq, Repr

/-- A userland module export value as `attach` receives it: either not an object
(null, undefined, numbers, strings, functions, ...; `clientRef` records the
client-reference capability, which is false for every falsy value) or an object. -/
inductive Userland where
  | nonObject (clientRef : Bool)
  | object (o : UserlandObject)
deriving DecidableEq, Repr

/-- Modelled from the spec: the client-component classifier collaborator (§6), a
capability check on the module value.  Combined with the source's truthiness guard
`userland && isClientReference(userland)`: a falsy value carries `clientRef = false`. -/
def isClientReference : Userland → Bool
  | .nonObject cr => cr
  | .object o => o.clientRef

/-- Modelled from the spec: the validated per-segment configuration produced by the
SegmentConfig Validator (§4.1).  The recognized key set is owned externally; we model
two representative recognized keys.  A key absent from the userland export stays
absent here (zod keeps optional keys absent), so key presence is observable. -/
structure AppSegmentConfig where
  runtime : Option String
  revalidate : Option JSValue
deriving DecidableEq, Repr

/-- `Object.keys(config.data).length` for a validated configuration: the number of
recognized keys actually present. -/
def configKeyCount (c : AppSegmentConfig) : Nat :=
  (if c.runtime.isSome then 1 else 0) + (if c.revalidate.isSome then 1 else 0)

/-- Modelled from the spec: the outcome of `AppSegmentConfigSchema.safeParse`
followed by `normalizeZodErrors` on the error branch — either a validated
configuration or the ordered list of human-readable field error messages. -/
inductive ValidationResult where
  | success (data : AppSegmentConfig)
  | failure (errors : List String)
deriving DecidableEq, Repr

/-- Modelled from the spec: field validation for the runtime-selection key — the
value, when present, must be a string. -/
def runtimeFieldResult : Option JSValue → Except String (Option String)
  | none => .ok none
  | some (.str s) => .ok (some s)
  | some _ => .error "Expected a string at \"runtime\""

/-- Modelled from the spec: field validation for the revalidation key — the value,
when present, must be a number or literal false. -/
def revalidateFieldResult : Option JSValue → Except String (Option JSValue)
  | none => .ok none
  | some (.num n) => .ok (some (.num n))
  | some (.bool false) => .ok (some (.bool false))
  | some _ => .error "Expected a number or false at \"revalidate\""

/-- Modelled from the spec: the SegmentConfig Validator (§4.1), external to this
source file.  It checks every recognized field and reports one error per offending
field, in field order, never stopping at the first failure. -/
def AppSegmentConfigSchema.safeParse (o : UserlandObject) : ValidationResult :=
  match runtimeFieldResult o.runtime, revalidateFieldResult o.revalidate with
  | .ok r, .ok v => .success ⟨r, v⟩
  | .error e, .ok _ => .failure [e]
  | .ok _, .error e => .failure [e]
  | .error e₁, .error e₂ => .failure [e₁, e₂]

/-- One collected route segment (`AppSegment` in the source). -/
structure AppSegment where
  name : String
  param : Option String
  filePath : Option String
  config : Option AppSegmentConfig
  isDynamicSegment : Bool
  generateStaticParams : Option JSValue
deriving DecidableEq, Repr

/-- A thrown JavaScript error: the source distinguishes `InvariantError`
(internal contract breach) from plain `Error` (author-facing failures). -/
inductive CollectError where
  | invariant (message : String)
  | error (message : String)
deriving DecidableEq, Repr

/-- Whether a character is matched by `.` in a JavaScript regular expression
without the `s` flag (everything except line terminators). -/
def jsRegexDotMatches (c : Char) : Bool :=
  !(c == '\n' || c == '\r' || c == '\u2028' || c == '\u2029')

/-- The test `/^\[.*\]$/.test(name)` from the source: the whole string is an
opening bracket, any run of non-line-terminator characters, and a closing bracket. -/
def testBracketRegex (name : String) : Bool :=
  match name.data with
  | [] => false
  | c :: rest =>
    c == '[' &&
      (match rest.reverse with
       | [] => false
       | l :: mid => l == ']' && mid.all jsRegexDotMatches)

/-- Whether `pat` is an initial run of `cs`. -/
def listStarts : List Char → List Char → Bool
  | [], _ => true
  | _ :: _, [] => false
  | p :: ps, c :: cs => p == c && listStarts ps cs

/-- Whether `suf` is a final run of `cs`. -/
def listTrails (suf cs : List Char) : Bool :=
  listStarts suf.reverse cs.reverse

/-- Modelled from the spec: the dedicated parameter-name extraction routine
(`getSegmentParam`, external to this source file).  It recognizes the
optional-catch-all (`[[...p]]`), catch-all (`[...p]`) and single (`[p]`) dynamic
segment forms and yields the declared name; an unrecognized form yields none. -/
def getSegmentParam (segment : String) : Option String :=
  let cs := segment.data
  if listStarts ['[', '[', '.', '.', '.'] cs && listTrails [']', ']'] cs then
    some (String.mk (((cs.drop 5).reverse.drop 2).reverse))
  else if listStarts ['[', '.', '.', '.'] cs && listTrails [']'] cs then
    some (String.mk (((cs.drop 4).reverse.drop 1).reverse))
  else if listStarts ['['] cs && listTrails [']'] cs then
    some (String.mk (((cs.drop 1).reverse.drop 1).reverse))
  else none

/-- The string interpolation of an optional file path inside a template literal:
an absent path prints as "undefined". -/
def jsInterpolate : Option String → String
  | some s => s
  | none => "undefined"

/-- The aggregated validation failure message built by `attach`: the segment's
file path on the first line, then each field error indented on its own line, in
validator-reported order. -/
def configErrorMessage (filePath : Option String) (errors : List String) : String :=
  String.intercalate "\n"
    (("Invalid segment configuration options detected for \"" ++
        jsInterpolate filePath ++ "\": ") ::
      errors.map (fun m => "    " ++ m))

/-- `segment.config?.runtime === 'edge'`: optional chaining through an absent
configuration yields false. -/
def selectsEdgeRuntime : Option AppSegmentConfig → Bool
  | some c => c.runtime == some "edge"
  | none => false

/-- `attach(segment, userland)` from the source.  JavaScript mutates the segment
in place and may throw; we return the segment's final state together with the
thrown `Error` message, if any. -/
def attach (segment : AppSegment) (userland : Userland) :
    AppSegment × Option String :=
  match userland with
  | .nonObject _ => (segment, none)
  | .object o =>
    match AppSegmentConfigSchema.safeParse o with
    | .failure errors => (segment, some (configErrorMessage segment.filePath errors))
    | .success data =>
      let s₁ := if 0 < configKeyCount data then { segment with config := some data }
                else segment
      match o.generateStaticParams with
      | some v =>
        if v.isFunction then
          let s₂ := { s₁ with generateStaticParams := some v }
          if selectsEdgeRuntime s₂.config then
            (s₂, some "Edge runtime is not supported with `generateStaticParams`.")
          else (s₂, none)
        else (s₁, none)
      | none => (s₁, none)

/-- Modelled from the spec: the loader tree (§3), an external recursive structure.
Each node carries its name, the module-loader collaborator's response for the node
(`mod` is `Userland.nonObject false` when no module resolves, mirroring an
undefined module, and `filePath` its reported path), and the distinguished
`children` slot of the parallel-routes mapping — the only slot this core reads
(§4.3); other parallel-route slots are never accessed and are not modelled. -/
inductive LoaderTree where
  | mk (name : String) (mod : Userland) (filePath : Option String)
      (children : Option LoaderTree)

/-- The names along the `children` chain of a loader tree, root first. -/
def chainNames : LoaderTree → List String
  | .mk n _ _ (some c) => n :: chainNames c
  | .mk n _ _ none => [n]

/-- The modules along the `children` chain of a loader tree, root first. -/
def chainMods : LoaderTree → List Userland
  | .mk _ m _ (some c) => m :: chainMods c
  | .mk _ m _ none => [m]

/-- One iteration of the page walker's loop body: build the segment for the
current node and, unless the module is a client-rendered component, run `attach`
on it.  Returns the segment together with any thrown error message. -/
def pageSegmentResult (name : String) (mod : Userland) (filePath : Option String) :
    AppSegment × Option String :=
  let isDyn := testBracketRegex name
  let seg₀ : AppSegment :=
    { name := name
      param := if isDyn then getSegmentParam name else none
      filePath := filePath
      config := none
      isDynamicSegment := isDyn
      generateStaticParams := none }
  if isClientReference mod then (seg₀, none) else attach seg₀ mod

/-- The while loop of `collectAppPageSegments`: walk the `children` chain, one
segment per node, aborting on the first thrown error. -/
def walkLoaderTree : LoaderTree → Except CollectError (List AppSegment)
  | .mk name mod filePath children =>
    match pageSegmentResult name mod filePath with
    | (_, some e) => .error (.error e)
    | (seg, none) =>
      match children with
      | some child =>
        match walkLoaderTree child with
        | .ok rest => .ok (seg :: rest)
        | .error e => .error e
      | none => .ok [seg]

/-- The `userland` payload of a page route module, which wraps the loader tree. -/
structure AppPageUserland where
  loaderTree : LoaderTree

/-- A page route module as this core consumes it. -/
structure AppPageRouteModule where
  userland : AppPageUserland

/-- `collectAppPageSegments` from the source: walk the module's loader tree. -/
def collectAppPageSegments (routeModule : AppPageRouteModule) :
    Except CollectError (List AppSegment) :=
  walkLoaderTree routeModule.userland.loaderTree

/-- The `definition` of a route-handler module: its URL path template and the
single backing file. -/
structure AppRouteDefinition where
  pathname : String
  filename : String
deriving DecidableEq, Repr

/-- A route-handler module as this core consumes it. -/
structure AppRouteRouteModule where
  definition : AppRouteDefinition
  userland : Userland
deriving DecidableEq, Repr

/-- `str.split(sep)` of JavaScript for a single-character separator, over the
character list: splitting the empty list yields one empty group, and every
separator occurrence starts a new group. -/
def splitOnChar (sep : Char) : List Char → List (List Char)
  | [] => [[]]
  | c :: cs =>
    if c = sep then [] :: splitOnChar sep cs
    else
      match splitOnChar sep cs with
      | [] => [[c]]
      | g :: gs => (c :: g) :: gs

/-- `pathname.split('/')` from the source, as a list of strings. -/
def jsSplitSlash (s : String) : List String :=
  (splitOnChar '/' s.data).map String.mk

/-- The per-component segment built by `collectAppRouteSegments` before the
terminal segment is patched: dynamic-segment detection and parameter extraction
only, no file path and no configuration. -/
def mkRouteSegment (name : String) : AppSegment :=
  let isDyn := testBracketRegex name
  { name := name
    param := if isDyn then getSegmentParam name else none
    filePath := none
    config := none
    isDynamicSegment := isDyn
    generateStaticParams := none }

/-- `collectAppRouteSegments` from the source: split the path template on `/`,
slice off the leading (empty) component, fail on an empty component list, build
one segment per component, then set the last segment's file path and run
`attach` on the module's userland export. -/
def collectAppRouteSegments (routeModule : AppRouteRouteModule) :
    Except CollectError (List AppSegment) :=
  let parts := (jsSplitSlash routeModule.definition.pathname).drop 1
  if parts.isEmpty then
    .error (.invariant "Expected at least one segment")
  else
    let segments := parts.map mkRouteSegment
    match segments.getLast? with
    | none =>
      -- unreachable: `parts` is nonempty, so `segments` is nonempty
      .error (.invariant "Expected at least one segment")
    | some seg =>
      let seg := { seg with filePath := some routeModule.definition.filename }
      match attach seg routeModule.userland with
      | (_, some e) => .error (.error e)
      | (seg, none) => .ok (segments.dropLast ++ [seg])

/-- A route module of one of the two known kinds, or anything else (the source
discriminates by capability tag). -/
inductive RouteModule where
  | appRoute (m : AppRouteRouteModule)
  | appPage (m : AppPageRouteModule)
  | other

/-- `collectSegments` from the source: dispatch on the module kind. -/
def collectSegments : RouteModule → Except CollectError (List AppSegment)
  | .appRoute m => collectAppRouteSegments m
  | .appPage m => collectAppPageSegments m
  | .other => .error (.invariant "Expected a route module to be one of app route or page")

/-- The collection result is an internal invariant failure (an `InvariantError`),
as opposed to success or an author-facing plain `Error`. -/
def isInvariantFailure : Except CollectError (List AppSegment) → Bool
  | .error (.invariant _) => true
  | _ => false

/-- Decidable equality for thrown-or-returned results, by cases on both sides. -/
instance exceptDecEq {ε α : Type} [DecidableEq ε] [DecidableEq α] :
    DecidableEq (Except ε α) := fun a b =>
  match a, b with
  | .ok x, .ok y =>
    if h : x = y then .isTrue (by rw [h]) else .isFalse (by simp [h])
  | .error e, .error f =>
    if h : e = f then .isTrue (by rw [h]) else .isFalse (by simp [h])
  | .ok _, .error _ => .isFalse (by simp)
  | .error _, .ok _ => .isFalse (by simp)

/-- `attach` never changes a segment's `name`, `param`, `filePath` or
`isDynamicSegment`: it only ever assigns `config` and `generateStaticParams`. -/
theorem attach_frame (s : AppSegment) (u : Userland) :
    (attach s u).1.name = s.name ∧ (attach s u).1.param = s.param ∧
      (attach s u).1.filePath = s.filePath ∧
      (attach s u).1.isDynamicSegment = s.isDynamicSegment := by
  cases u with
  | nonObject cr => simp [attach]
  | object o =>
    cases h : AppSegmentConfigSchema.safeParse o with
    | failure errs => simp [attach, h]
    | success d =>
      cases hg : o.generateStaticParams with
      | none =>
        simp only [attach, h, hg]
        split <;> simp
      | some v =>
        cases hv : v.isFunction with
        | false =>
          simp only [attach, h, hg, hv, Bool.false_eq_true, if_false]
          split <;> simp
        | true =>
          simp only [attach, h, hg, hv, if_true]
          split <;> split <;> simp

/-- On a validation failure `attach` returns the segment untouched, together with
the aggregated error message. -/
theorem attach_of_failure (s : AppSegment) (o : UserlandObject) (errs : List String)
    (h : AppSegmentConfigSchema.safeParse o = .failure errs) :
    attach s (.object o) = (s, some (configErrorMessage s.filePath errs)) := by
  simp [attach, h]

/-- Fields of the segment built by one iteration of the page walker: the node's
name, the regex-based dynamic flag, and the extracted parameter for dynamic names. -/
theorem pageSegmentResult_fields (n : String) (m : Userland) (f : Option String) :
    (pageSegmentResult n m f).1.name = n ∧
      (pageSegmentResult n m f).1.isDynamicSegment = testBracketRegex n ∧
      (pageSegmentResult n m f).1.param =
        (if testBracketRegex n then getSegmentParam n else none) := by
  simp only [pageSegmentResult]
  split
  · exact ⟨rfl, rfl, rfl⟩
  · refine ⟨(attach_frame _ _).1, ?_, ?_⟩
    · exact (attach_frame _ _).2.2.2
    · exact (attach_frame _ _).2.1

/-- For a client-rendered module the page walker's iteration skips `attach`: the
segment keeps `config` and `generateStaticParams` unset and no error is raised. -/
theorem pageSegmentResult_client (n : String) (m : Userland) (f : Option String)
    (hc : isClientReference m = true) :
    (pageSegmentResult n m f).1.config = none ∧
      (pageSegmentResult n m f).1.generateStaticParams = none ∧
      (pageSegmentResult n m f).2 = none := by
  simp [pageSegmentResult, hc]

/-- Inversion of a successful walk step: the node's own iteration succeeded, and
either there is no `children` entry and the result is that single segment, or the
rest of the result comes from successfully walking the `children` sub-tree. -/
theorem walk_inv (n : String) (m : Userland) (f : Option String)
    (ch : Option LoaderTree) (segs : List AppSegment)
    (h : walkLoaderTree (.mk n m f ch) = .ok segs) :
    ∃ seg, pageSegmentResult n m f = (seg, none) ∧
      ((ch = none ∧ segs = [seg]) ∨
        (∃ child rest, ch = some child ∧ walkLoaderTree child = .ok rest ∧
          segs = seg :: rest)) := by
  rcases hp : pageSegmentResult n m f with ⟨seg, err⟩
  simp only [walkLoaderTree, hp] at h
  cases err with
  | some e => simp at h
  | none =>
    refine ⟨seg, rfl, ?_⟩
    cases ch with
    | none =>
      simp only [Except.ok.injEq] at h
      exact .inl ⟨rfl, h.symm⟩
    | some child =>
      cases hw : walkLoaderTree child with
      | error e => simp [hw] at h
      | ok rest =>
        simp only [hw, Except.ok.injEq] at h
        exact .inr ⟨child, rest, rfl, hw, h.symm⟩

/-- A successful walk yields the chain's names in root-to-leaf order: one segment
per node of the `children` chain, named after its node. -/
theorem walk_ok_names : ∀ (t : LoaderTree) (segs : List AppSegment),
    walkLoaderTree t = .ok segs → segs.map AppSegment.name = chainNames t
  | .mk n m f ch, segs, h => by
    obtain ⟨seg, hp, hrest⟩ := walk_inv n m f ch segs h
    have hname : seg.name = n := by
      have := (pageSegmentResult_fields n m f).1
      rw [hp] at this
      exact this
    rcases hrest with ⟨hch, hsegs⟩ | ⟨child, rest, hch, hw, hsegs⟩
    · subst hch hsegs
      simp [chainNames, hname]
    · subst hch hsegs
      simp [chainNames, hname, walk_ok_names child rest hw]

/-- In a successful walk, every chain node whose module is a client reference
contributes a segment with neither `config` nor `generateStaticParams` set. -/
theorem walk_ok_client : ∀ (t : LoaderTree) (segs : List AppSegment),
    walkLoaderTree t = .ok segs →
    ∀ p ∈ (chainMods t).zip segs, isClientReference p.1 = true →
      p.2.config = none ∧ p.2.generateStaticParams = none
  | .mk n m f ch, segs, h => by
    obtain ⟨seg, hp, hrest⟩ := walk_inv n m f ch segs h
    have hhead : isClientReference m = true →
        seg.config = none ∧ seg.generateStaticParams = none := by
      intro hc
      have hcl := pageSegmentResult_client n m f hc
      rw [hp] at hcl
      exact ⟨hcl.1, hcl.2.1⟩
    rcases hrest with ⟨hch, hsegs⟩ | ⟨child, rest, hch, hw, hsegs⟩
    · subst hch hsegs
      intro p hpmem hc
      simp only [chainMods, List.zip_cons_cons, List.zip_nil_right,
        List.mem_singleton] at hpmem
      subst hpmem
      exact hhead hc
    · subst hch hsegs
      intro p hpmem hc
      simp only [chainMods, List.zip_cons_cons, List.mem_cons] at hpmem
      rcases hpmem with hpmem | hpmem
      · subst hpmem
        exact hhead hc
      · exact walk_ok_client child rest hw p hpmem hc

/-- In a successful walk, every produced segment's dynamic flag agrees with the
bracket regex on its name, and its `param` is exactly the extraction result for
dynamic names and absent otherwise. -/
theorem walk_ok_shape : ∀ (t : LoaderTree) (segs : List AppSegment),
    walkLoaderTree t = .ok segs →
    ∀ s ∈ segs, s.isDynamicSegment = testBracketRegex s.name ∧
      s.param = (if s.isDynamicSegment = true then getSegmentParam s.name else none)
  | .mk n m f ch, segs, h => by
    obtain ⟨seg, hp, hrest⟩ := walk_inv n m f ch segs h
    have hf := pageSegmentResult_fields n m f
    rw [hp] at hf
    obtain ⟨hname, hdyn, hparam⟩ := hf
    have hhead : seg.isDynamicSegment = testBracketRegex seg.name ∧
        seg.param = (if seg.isDynamicSegment = true then getSegmentParam seg.name
          else none) := by
      rw [hname, hdyn, hparam]
      exact ⟨rfl, rfl⟩
    rcases hrest with ⟨hch, hsegs⟩ | ⟨child, rest, hch, hw, hsegs⟩
    · subst hch hsegs
      intro s hs
      rw [List.mem_singleton] at hs
      subst hs
      exact hhead
    · subst hch hsegs
      intro s hs
      rcases List.mem_cons.mp hs with hs | hs
      · subst hs
        exact hhead
      · exact walk_ok_shape child rest hw s hs

/-- Inversion of a successful handler-route collection: the path components were
nonempty, the terminal segment received the module's file path, `attach` on the
module's userland export did not throw, and the result is the non-terminal
segments followed by the attached terminal segment. -/
theorem route_ok_inv (rm : AppRouteRouteModule) (segs : List AppSegment)
    (h : collectAppRouteSegments rm = .ok segs) :
    ∃ seg,
      (((jsSplitSlash rm.definition.pathname).drop 1).map mkRouteSegment).getLast? =
        some seg ∧
      (attach { seg with filePath := some rm.definition.filename } rm.userland).2 =
        none ∧
      segs =
        (((jsSplitSlash rm.definition.pathname).drop 1).map mkRouteSegment).dropLast ++
          [(attach { seg with filePath := some rm.definition.filename } rm.userland).1] := by
  simp only [collectAppRouteSegments] at h
  split at h
  · simp at h
  · split at h
    · simp at h
    · rename_i seg hl
      rcases ha : attach { seg with filePath := some rm.definition.filename } rm.userland
        with ⟨seg', err⟩
      rw [ha] at h
      cases err with
      | some e => simp at h
      | none =>
        simp only [Except.ok.injEq] at h
        exact ⟨seg, hl, by rw [ha], by rw [ha, ← h]⟩

/-- C1, counterexample: for the userland export with a validated edge runtime and
a callable `generateStaticParams`, `attach` does raise the feature-incompatibility
error, but at that point the segment it mutated has BOTH `config` and
`generateStaticParams` set — refuting the claim's assertion that after `attach`
returns or throws the segment does not have both set. -/
theorem c1_counterexample :
    (attach ⟨"page", none, some "app/page.ts", none, false, none⟩
        (.object ⟨some (.str "edge"), none, some (.func 0), false⟩)).2 =
      some "Edge runtime is not supported with `generateStaticParams`." ∧
    (attach ⟨"page", none, some "app/page.ts", none, false, none⟩
        (.object ⟨some (.str "edge"), none, some (.func 0), false⟩)).1.config.isSome =
      true ∧
    (attach ⟨"page", none, some "app/page.ts", none, false, none⟩
        (.object ⟨some (.str "edge"), none, some (.func 0), false⟩)).1.generateStaticParams.isSome =
      true := by
  decide

/-- C1, amended: for every segment and every object userland export whose
validated configuration selects the edge runtime and which carries a callable
`generateStaticParams`, `attach` raises the feature-incompatibility error — and
the segment record, mutated before the throw, ends with both `config` and
`generateStaticParams` set; the thrown error (which aborts the route's
collection), not any un-setting of fields, is what prevents the two from
coexisting on any returned segment list. -/
theorem c1_edge_incompat (s : AppSegment) (o : UserlandObject) (d : AppSegmentConfig)
    (v : JSValue) (hd : AppSegmentConfigSchema.safeParse o = .success d)
    (hr : d.runtime = some "edge") (hg : o.generateStaticParams = some v)
    (hv : v.isFunction = true) :
    attach s (.object o) =
      ({ s with config := some d, generateStaticParams := some v },
        some "Edge runtime is not supported with `generateStaticParams`.") := by
  have hk : 0 < configKeyCount d := by
    simp [configKeyCount, hr]
  simp only [attach, hd, hg, hv, if_true, hk, if_pos hk]
  simp [selectsEdgeRuntime, hr]

/-- C1, witness: the amended theorem applied to a concrete segment and userland
export. -/
theorem c1_witness :
    attach ⟨"layout", none, some "app/layout.ts", none, false, none⟩
        (.object ⟨some (.str "edge"), none, some (.func 7), false⟩) =
      ({ (⟨"layout", none, some "app/layout.ts", none, false, none⟩ : AppSegment) with
          config := some ⟨some "edge", none⟩, generateStaticParams := some (.func 7) },
        some "Edge runtime is not supported with `generateStaticParams`.") :=
  c1_edge_incompat _ _ _ _ (by decide) (by decide) rfl rfl

/-- C2, counterexample: for the path template `/`, JavaScript's
`"/".split("/")` is `["", ""]`, so after slicing off the leading element one
component (the empty string) remains — the builder raises no invariant failure
and returns one segment named `""`, refuting the claim that `/` produces zero
components and an internal invariant failure. -/
theorem c2_counterexample :
    collectAppRouteSegments ⟨⟨"/", "app/route.ts"⟩, .nonObject false⟩ =
      .ok [⟨"", none, some "app/route.ts", none, false, none⟩] := by
  decide

/-- C2, amended: the Handler-Route Segment Builder raises the internal invariant
failure exactly when zero components remain after splitting the path template on
`/` and discarding the leading component — which happens exactly when the
template contains no `/` at all (e.g. the empty string), and not for `/`, which
leaves one empty-string component. -/
theorem c2_invariant_iff (rm : AppRouteRouteModule) :
    isInvariantFailure (collectAppRouteSegments rm) =
      ((jsSplitSlash rm.definition.pathname).drop 1).isEmpty := by
  simp only [collectAppRouteSegments]
  split
  · rename_i he
    rw [he]
    rfl
  · rename_i he
    split
    · rename_i hl
      exfalso
      rw [List.getLast?_eq_none_iff, List.map_eq_nil_iff] at hl
      rw [hl] at he
      simp at he
    · rename_i seg hl
      rw [Bool.not_eq_true] at he
      rcases ha : attach { seg with filePath := some rm.definition.filename } rm.userland
        with ⟨seg', err⟩
      cases err <;> simp only [isInvariantFailure] <;> exact he.symm

/-- C3, counterexample: a one-node loader tree (N = 1, trivially each node except
the last has a `children` entry) whose module carries an invalid configuration
makes the walker throw: it yields an error and no segments, not exactly N = 1
segments as the claim asserts for every such tree. -/
theorem c3_counterexample :
    chainNames (.mk "root" (.object ⟨some (.num 1), none, none, false⟩)
        (some "app/layout.ts") none) = ["root"] ∧
    walkLoaderTree (.mk "root" (.object ⟨some (.num 1), none, none, false⟩)
        (some "app/layout.ts") none) =
      .error (.error (configErrorMessage (some "app/layout.ts")
        ["Expected a string at \"runtime\""])) := by
  exact ⟨rfl, rfl⟩

/-- C3, amended: whenever the Page-Route Segment Walker returns successfully, it
yields exactly one segment per node of the `children` chain, in root-to-leaf
order (the segment names are the chain's names), the walk terminating exactly at
the node with no `children` entry; when some node's attachment throws, the walk
instead aborts with that error and yields no segments. -/
theorem c3_walk_chain (t : LoaderTree) (segs : List AppSegment)
    (h : walkLoaderTree t = .ok segs) :
    segs.length = (chainNames t).length ∧
      segs.map AppSegment.name = chainNames t := by
  have hn := walk_ok_names t segs h
  exact ⟨by rw [← hn, List.length_map], hn⟩

/-- C3, witness: the amended theorem applied to a concrete two-node chain. -/
theorem c3_witness :
    ([⟨"a", none, none, none, false, none⟩, ⟨"b", none, none, none, false, none⟩] :
        List AppSegment).length =
      (chainNames (.mk "a" (.nonObject false) none
        (some (.mk "b" (.nonObject false) none none)))).length ∧
    ([⟨"a", none, none, none, false, none⟩, ⟨"b", none, none, none, false, none⟩] :
        List AppSegment).map AppSegment.name =
      chainNames (.mk "a" (.nonObject false) none
        (some (.mk "b" (.nonObject false) none none))) :=
  c3_walk_chain _ _ (by rfl)

/-- C4: for a route-handler module with path template `/a/[id]/b`, the builder
returns exactly three segments named `a`, `[id]`, `b` in that order; the first
two carry no file path, no configuration and no `generateStaticParams`, the
middle one has `param` resolved to `id`, and the terminal segment is named `b`
and carries the module's single backing file as its `filePath`. -/
theorem c4_route_shape (fn : String) (u : Userland) (segs : List AppSegment)
    (h : collectAppRouteSegments ⟨⟨"/a/[id]/b", fn⟩, u⟩ = .ok segs) :
    ∃ s, segs = [⟨"a", none, none, none, false, none⟩,
        ⟨"[id]", some "id", none, none, true, none⟩, s] ∧
      s.name = "b" ∧ s.filePath = some fn := by
  obtain ⟨seg, hl, hok, hsegs⟩ := route_ok_inv _ _ h
  have hm : (((jsSplitSlash "/a/[id]/b").drop 1).map mkRouteSegment) =
      [⟨"a", none, none, none, false, none⟩,
        ⟨"[id]", some "id", none, none, true, none⟩,
        ⟨"b", none, none, none, false, none⟩] := by decide
  rw [hm] at hl hsegs
  have hseg : seg = ⟨"b", none, none, none, false, none⟩ := by
    have : some (⟨"b", none, none, none, false, none⟩ : AppSegment) = some seg := hl
    exact (Option.some.injEq _ _ ▸ this).symm
  subst hseg
  refine ⟨(attach ⟨"b", none, some fn, none, false, none⟩ u).1, ?_, ?_, ?_⟩
  · simpa using hsegs
  · exact (attach_frame _ _).1
  · exact (attach_frame _ _).2.2.1

/-- C4, witness: the theorem applied to a concrete module whose userland export
is benign, with the collection result evaluated. -/
theorem c4_witness :
    ∃ s, ([⟨"a", none, none, none, false, none⟩,
        ⟨"[id]", some "id", none, none, true, none⟩,
        ⟨"b", none, some "app/a/[id]/b/route.ts", none, false, none⟩] :
          List AppSegment) =
        [⟨"a", none, none, none, false, none⟩,
          ⟨"[id]", some "id", none, none, true, none⟩, s] ∧
      s.name = "b" ∧ s.filePath = some "app/a/[id]/b/route.ts" :=
  c4_route_shape "app/a/[id]/b/route.ts" (.nonObject false) _ (by decide)

/-- C5: for every segment and every object userland export that fails validation,
`attach` raises exactly one aggregated error whose message is the segment's file
path line followed by each field-level error indented on its own line, in
validator-reported order (the validator itself never fails fast on the first
field); the segment is returned unchanged. -/
theorem c5_aggregated_errors (s : AppSegment) (o : UserlandObject)
    (errs : List String)
    (h : AppSegmentConfigSchema.safeParse o = .failure errs) :
    attach s (.object o) =
      (s, some (String.intercalate "\n"
        (("Invalid segment configuration options detected for \"" ++
            jsInterpolate s.filePath ++ "\": ") ::
          errs.map (fun m => "    " ++ m)))) := by
  simpa [configErrorMessage] using attach_of_failure s o errs h

/-- C5, witness: an export with two simultaneously invalid configuration keys
produces one error whose message mentions both fields, each indented on its own
line, in validator order. -/
theorem c5_witness :
    attach ⟨"page", none, some "app/page.ts", none, false, none⟩
        (.object ⟨some (.num 1), some (.str "x"), none, false⟩) =
      (⟨"page", none, some "app/page.ts", none, false, none⟩,
        some (String.intercalate "\n"
          ["Invalid segment configuration options detected for \"app/page.ts\": ",
            "    Expected a string at \"runtime\"",
            "    Expected a number or false at \"revalidate\""])) := by
  rw [c5_aggregated_errors ⟨"page", none, some "app/page.ts", none, false, none⟩
    ⟨some (.num 1), some (.str "x"), none, false⟩
    ["Expected a string at \"runtime\"", "Expected a number or false at \"revalidate\""]
    (by decide)]
  decide

/-- C6: for every segment and every object userland export that passes
validation, `attach` assigns the validated configuration to `segment.config` if
and only if at least one recognized key is present in the validated result; with
zero keys present (e.g. the empty object) the segment's `config` is left exactly
as it was. -/
theorem c6_config_presence (s : AppSegment) (o : UserlandObject)
    (d : AppSegmentConfig)
    (h : AppSegmentConfigSchema.safeParse o = .success d) :
    (attach s (.object o)).1.config =
      (if 0 < configKeyCount d then some d else s.config) := by
  cases hg : o.generateStaticParams with
  | none =>
    simp only [attach, h, hg]
    split <;> simp
  | some v =>
    cases hv : v.isFunction with
    | false =>
      simp only [attach, h, hg, hv, Bool.false_eq_true, if_false]
      split <;> simp
    | true =>
      simp only [attach, h, hg, hv, if_true]
      split <;> split <;> simp

/-- C6, witness: attaching the empty object to a segment with no configuration
leaves `config` unset. -/
theorem c6_witness :
    (attach ⟨"page", none, some "p.ts", none, false, none⟩
        (.object ⟨none, none, none, false⟩)).1.config = none := by
  have h := c6_config_presence ⟨"page", none, some "p.ts", none, false, none⟩
    ⟨none, none, none, false⟩ ⟨none, none⟩ (by decide)
  simpa [configKeyCount] using h

/-- C7: in every successful page-route walk, each chain node whose module is
classified as a client-rendered component contributes a segment whose `config`
and `generateStaticParams` remain unset, regardless of any configuration-shaped
exports present on the module — `attach` is never invoked for that node. -/
theorem c7_client_skipped (t : LoaderTree) (segs : List AppSegment)
    (h : walkLoaderTree t = .ok segs) :
    ∀ p ∈ (chainMods t).zip segs, isClientReference p.1 = true →
      p.2.config = none ∧ p.2.generateStaticParams = none :=
  walk_ok_client t segs h

/-- C7, witness: a client-reference module full of configuration-shaped exports
(an edge runtime selection, a revalidation value, and a callable
`generateStaticParams`) still yields a segment with `config` and
`generateStaticParams` unset. -/
theorem c7_witness :
    (⟨"root", none, some "c.ts", none, false, none⟩ : AppSegment).config = none ∧
    (⟨"root", none, some "c.ts", none, false, none⟩ :
        AppSegment).generateStaticParams = none :=
  c7_client_skipped
    (.mk "root" (.object ⟨some (.str "edge"), some (.num 1), some (.func 3), true⟩)
      (some "c.ts") none)
    [⟨"root", none, some "c.ts", none, false, none⟩] (by rfl)
    (.object ⟨some (.str "edge"), some (.num 1), some (.func 3), true⟩,
      ⟨"root", none, some "c.ts", none, false, none⟩)
    (by decide) (by decide)

/-- C8: every segment produced by a successful page-route walk or handler-route
collection has `isDynamicSegment` true exactly when its name matches the
bracket-delimited regular expression, and its `param` is exactly the
name-extraction result when dynamic and absent otherwise — an extraction that
yields none is not an error, just an absent `param`. -/
theorem c8_dynamic_detection :
    (∀ (t : LoaderTree) (segs : List AppSegment), walkLoaderTree t = .ok segs →
      ∀ s ∈ segs, s.isDynamicSegment = testBracketRegex s.name ∧
        s.param = (if s.isDynamicSegment = true then getSegmentParam s.name
          else none)) ∧
    (∀ (rm : AppRouteRouteModule) (segs : List AppSegment),
      collectAppRouteSegments rm = .ok segs →
      ∀ s ∈ segs, s.isDynamicSegment = testBracketRegex s.name ∧
        s.param = (if s.isDynamicSegment = true then getSegmentParam s.name
          else none)) := by
  constructor
  · exact walk_ok_shape
  · intro rm segs h s hs
    obtain ⟨seg, hl, hok, hsegs⟩ := route_ok_inv rm segs h
    subst hsegs
    rcases List.mem_append.mp hs with hs | hs
    · obtain ⟨a, -, rfl⟩ := List.mem_map.mp (List.dropLast_subset _ hs)
      simp [mkRouteSegment]
    · rw [List.mem_singleton] at hs
      subst hs
      obtain ⟨a, -, ha⟩ :=
        List.mem_map.mp (List.mem_of_mem_getLast? (l := _) hl)
      subst ha
      obtain ⟨hn, hp, -, hd⟩ :=
        attach_frame { mkRouteSegment a with filePath := some rm.definition.filename }
          rm.userland
      constructor
      · rw [hd, hn]
        simp [mkRouteSegment]
      · rw [hp, hd, hn]
        simp [mkRouteSegment]

/-- C8, witness: both conjuncts applied at concrete collections — a one-node
dynamic page chain and a two-component handler route ending in a dynamic
component. -/
theorem c8_witness :
    ((⟨"[slug]", some "slug", none, none, true, none⟩ : AppSegment).isDynamicSegment =
        testBracketRegex
          (⟨"[slug]", some "slug", none, none, true, none⟩ : AppSegment).name) ∧
    ((⟨"[id]", some "id", some "r.ts", none, true, none⟩ : AppSegment).param =
      (if (⟨"[id]", some "id", some "r.ts", none, true, none⟩ :
            AppSegment).isDynamicSegment = true then
        getSegmentParam (⟨"[id]", some "id", some "r.ts", none, true, none⟩ :
          AppSegment).name
      else none)) :=
  ⟨(c8_dynamic_detection.1 (.mk "[slug]" (.nonObject false) none none)
      [⟨"[slug]", some "slug", none, none, true, none⟩] (by rfl)
      ⟨"[slug]", some "slug", none, none, true, none⟩ (by decide)).1,
    (c8_dynamic_detection.2 ⟨⟨"/x/[id]", "r.ts"⟩, .nonObject false⟩
      [⟨"x", none, none, none, false, none⟩,
        ⟨"[id]", some "id", some "r.ts", none, true, none⟩] (by decide)
      ⟨"[id]", some "id", some "r.ts", none, true, none⟩ (by decide)).2⟩

/-- C9: for every segment and every userland value that is not an object
(including null and undefined), `attach` returns the segment exactly as it was
and raises no error. -/
theorem c9_non_object (s : AppSegment) (cr : Bool) :
    attach s (.nonObject cr) = (s, none) :=
  rfl

/-- C10: for every segment and every object userland export whose validation
fails, `attach` throws before performing any assignment: the segment is exactly
as it was before the call, and an error is raised — atomicity holds on the
validation-failure branch. -/
theorem c10_validation_atomic (s : AppSegment) (o : UserlandObject)
    (errs : List String)
    (h : AppSegmentConfigSchema.safeParse o = .failure errs) :
    (attach s (.object o)).1 = s ∧ (attach s (.object o)).2 ≠ none := by
  rw [attach_of_failure s o errs h]
  exact ⟨rfl, by simp⟩

/-- C10, witness: the theorem applied to a concrete segment and an invalid
object export. -/
theorem c10_witness :
    (attach ⟨"seg", none, some "s.ts", none, false, none⟩
        (.object ⟨some (.bool true), none, none, false⟩)).1 =
      ⟨"seg", none, some "s.ts", none, false, none⟩ ∧
    (attach ⟨"seg", none, some "s.ts", none, false, none⟩
        (.object ⟨some (.bool true), none, none, false⟩)).2 ≠ none :=
  c10_validation_atomic _ _ ["Expected a string at \"runtime\""] (by decide)
